import Mathlib

/-!
# Verification of the animated-flower program (`enhanced_matplotlib_flower.py`)

Shallow embedding of the single source file.  The program is one frame-indexed
callback `animate(frame)` driven by matplotlib's `FuncAnimation` timer over the
module-level mutable state, plus two pure geometry helpers
(`get_rotation_matrix`, `create_petal_path`).

Modelling conventions:
* Python floats are modelled exactly: frame arithmetic over `ℕ`/`ℤ`/`ℚ`,
  geometry over `ℝ` (the program only adds, multiplies, divides by constants
  and takes `cos`/`sin`, so exact arithmetic is faithful).
* Python lists holding per-element animation data are modelled as index
  functions `ℕ → _`; writes `xs[i] = v` become pointwise updates.  The petal
  list has 12 entries (`petal_bloom_starts[-1]` is entry 11); the code
  iterates leaves over `range(6)` (the `leaves` list), which the guards
  `i < 6` mirror.
* Drawable artists keep only their mutated attributes.  Attributes whose
  value the program derives from the (real-valued) sway rotation are stored
  as the rational *arguments* the code passes (`CenterSpec`, `LeafCenterSpec`,
  `TitlePosSpec`); the actual real-valued point is the pure function
  `CenterSpec.point` etc. of those arguments.  Static attributes (colors,
  line widths, ellipse tilt angles, the figure itself) are not modelled.
* `matplotlib.path.Path(verts, codes)` validates that `codes` and `verts`
  have the same length and raises `ValueError` otherwise; `Path_mk` returns
  `none` in exactly that case (dependency behaviour, not repository code).
-/

namespace Flower

/-! ## Animation parameters (source lines 36-51) -/

def num_petals : ℕ := 12
def petal_length : ℚ := 50
def petal_width : ℚ := 30
def center_radius : ℚ := 25
def stem_height : ℚ := 220
def leaf_size : ℚ := 30
def total_frames : ℕ := 600
def center_fade_duration : ℕ := 40
def bloom_duration : ℕ := 40
def bloom_stagger : ℕ := 20
def unfurl_duration : ℕ := 20
def unfurl_stagger : ℕ := 10
def phase_delay : ℕ := 20
def sway_speed : ℚ := 3/100
def label_duration : ℕ := 10

/-! ## Geometry helpers (source lines 62-88) -/

/-- `math.radians`, as used via `math.radians(angle_deg + rotation)`. -/
noncomputable def radians (deg : ℝ) : ℝ := deg * (Real.pi / 180)

/-- A 2×2 real matrix (the program builds one with `np.array`). -/
structure Mat2 where
  m00 : ℝ
  m01 : ℝ
  m10 : ℝ
  m11 : ℝ

/-- Source lines 63-65: `get_rotation_matrix(angle)`. -/
noncomputable def get_rotation_matrix (angle : ℝ) : Mat2 :=
  ⟨Real.cos angle, -Real.sin angle, Real.sin angle, Real.cos angle⟩

/-- Matrix–vector product `m @ v` for a 2-vector. -/
def Mat2.apply (m : Mat2) (v : ℝ × ℝ) : ℝ × ℝ :=
  (m.m00 * v.1 + m.m01 * v.2, m.m10 * v.1 + m.m11 * v.2)

/-- The vertex list built by `create_petal_path` (source lines 68-84):
four literal vertices (base left, tip, base right, close-curve point),
then the two bulge points inserted at positions 2 and 3. -/
noncomputable def petal_verts (center_x center_y angle_deg length width rotation : ℝ) :
    List (ℝ × ℝ) :=
  let angle_rad := radians (angle_deg + rotation)
  let verts : List (ℝ × ℝ) :=
    [(center_x + length * Real.cos (angle_rad - Real.pi/2),
      center_y + length * Real.sin (angle_rad - Real.pi/2)),
     (center_x + length * 1.2 * Real.cos angle_rad,
      center_y + length * 1.2 * Real.sin angle_rad),
     (center_x + length * Real.cos (angle_rad + Real.pi/2),
      center_y + length * Real.sin (angle_rad + Real.pi/2)),
     (center_x + length * 0.8 * Real.cos (angle_rad - Real.pi/2),
      center_y + length * 0.8 * Real.sin (angle_rad - Real.pi/2))]
  let mid_x := center_x + (length * 0.5) * Real.cos angle_rad
  let mid_y := center_y + (length * 0.5) * Real.sin angle_rad
  let verts := verts.insertIdx 2
    (mid_x - width/2 * Real.sin angle_rad, mid_y + width/2 * Real.cos angle_rad)
  let verts := verts.insertIdx 3
    (mid_x + width/2 * Real.sin angle_rad, mid_y - width/2 * Real.cos angle_rad)
  verts

/-- matplotlib path-segment codes used by the program. -/
inductive PathCode where
  | MOVETO
  | CURVE3
  | CLOSEPOLY
deriving DecidableEq

/-- Source line 86: `codes = [Path.MOVETO, Path.CURVE3, Path.CURVE3, Path.CURVE3, Path.CLOSEPOLY]`. -/
def petal_codes : List PathCode :=
  [.MOVETO, .CURVE3, .CURVE3, .CURVE3, .CLOSEPOLY]

/-- `matplotlib.path.Path(verts, codes)`: the constructor raises `ValueError`
unless `codes` is a 1-D sequence of the same length as `verts`; a successfully
constructed path pairs each vertex with its code.  (Behaviour of the
matplotlib dependency, modelled as `Option`.) -/
def Path_mk (verts : List (ℝ × ℝ)) (codes : List PathCode) :
    Option (List ((ℝ × ℝ) × PathCode)) :=
  if verts.length = codes.length then some (verts.zip codes) else none

/-- Source lines 68-88: `create_petal_path`. -/
noncomputable def create_petal_path
    (center_x center_y angle_deg length width rotation : ℝ) :
    Option (List ((ℝ × ℝ) × PathCode)) :=
  Path_mk (petal_verts center_x center_y angle_deg length width rotation) petal_codes

/-! ## Drawable-attribute value descriptions -/

/-- The `(center_x, center_y)` argument the program passes to
`create_petal_path`: the origin (phases 0-2), or, in the sway phase, the
petal's half-length axis offset rotated by the accumulated sway angle
(source lines 221-227). -/
inductive CenterSpec where
  | origin
  | swayRotated (swayAngle baseAngleDeg : ℚ)
deriving DecidableEq

/-- The real point described by a `CenterSpec`. -/
noncomputable def CenterSpec.point : CenterSpec → ℝ × ℝ
  | .origin => (0, 0)
  | .swayRotated a deg =>
      (get_rotation_matrix (a : ℝ)).apply
        (((petal_length : ℝ) / 2) * Real.cos (radians (deg : ℝ)),
         ((petal_length : ℝ) / 2) * Real.sin (radians (deg : ℝ)))

/-- The full argument tuple of a `create_petal_path` call stored in a petal
artist by `petal.set_path(...)` (or by the initial construction). -/
structure PetalPathSpec where
  center : CenterSpec
  angle_deg : ℚ
  length : ℚ
  width : ℚ
  rotation : ℚ
deriving DecidableEq

/-- The vertex list of the path a petal artist currently holds. -/
noncomputable def PetalPathSpec.renderVerts (p : PetalPathSpec) : List (ℝ × ℝ) :=
  petal_verts p.center.point.1 p.center.point.2
    (p.angle_deg : ℝ) (p.length : ℝ) (p.width : ℝ) (p.rotation : ℝ)

/-- A leaf ellipse's center: its fixed initial position, or, in the sway
phase, the offset `(±50, pos_y)` rotated by the sway angle (lines 231-237). -/
inductive LeafCenterSpec where
  | fixed (x y : ℚ)
  | swayRotated (swayAngle dx dy : ℚ)
deriving DecidableEq

/-- The title text's position: fixed, or swaying with the given accumulated
angle (source lines 242-244: `(sin(sway_angle * 2) * 5 * 0.01, 1.1)`). -/
inductive TitlePosSpec where
  | fixed (x y : ℚ)
  | swayed (swayAngle : ℚ)
deriving DecidableEq

/-! ## The mutable program state -/

/-- Module-level animation state plus the mutated drawable attributes. -/
structure AnimState where
  frame_count : ℕ
  current_petal_index : ℕ
  animation_phase : ℕ
  petal_bloom_starts : ℕ → ℕ
  leaf_unfurl_starts : ℕ → ℕ
  sway_angle : ℚ
  center_alpha : ℚ
  title_alpha : ℚ
  title_pos : TitlePosSpec
  label_text : String
  label_alpha : ℚ
  petal_paths : ℕ → PetalPathSpec
  petal_alphas : ℕ → ℚ
  stem_data : Option ((ℚ × ℚ) × (ℚ × ℚ))
  stem_alpha : ℚ
  leaf_widths : ℕ → ℚ
  leaf_heights : ℕ → ℚ
  leaf_alphas : ℕ → ℚ
  leaf_centers : ℕ → LeafCenterSpec

/-- `leaf_positions = [-70, -10, 60]` (source line 111). -/
def leaf_positions : List ℚ := [-70, -10, 60]

/-- Position of leaf pair `p` along the stem. -/
def leafPos (p : ℕ) : ℚ := leaf_positions.getD p 0

/-- Per-leaf trigger offset (source line 197): left leaves (even index) 0,
right leaves the stagger delay. -/
def side_delay (i : ℕ) : ℕ := if i % 2 = 0 then 0 else unfurl_stagger

/-- `progress = min(elapsed / bloom_duration, 1)` for a petal
(source line 161); `elapsed = frame - petal_bloom_starts[i]` is a Python
`int` subtraction, hence computed in `ℚ` via the casts. -/
def bloomProgress (start f : ℕ) : ℚ :=
  min (((f : ℚ) - (start : ℚ)) / (bloom_duration : ℚ)) 1

/-- `progress = min(elapsed / unfurl_duration, 1)` for a leaf (line 203). -/
def unfurlProgress (start f : ℕ) : ℚ :=
  min (((f : ℚ) - (start : ℚ)) / (unfurl_duration : ℚ)) 1

/-- Phase-label alpha in phases 1 and 2 (source lines 155-156, 186-187):
`label_progress = (frame % (label_duration * 3)) / label_duration`, then
`min(lp, 1)` while rising, `max(2 - lp, 0)` while fading. -/
def labelBlink (f : ℕ) : ℚ :=
  let lp : ℚ := ((f % (label_duration * 3) : ℕ) : ℚ) / (label_duration : ℚ)
  if lp < 1 then min lp 1 else max (2 - lp) 0

/-- `progress = min(frame / center_fade_duration, 1)` (source line 141). -/
def center_progress (f : ℕ) : ℚ :=
  min ((f : ℚ) / (center_fade_duration : ℚ)) 1

/-- The module-level initial state (source lines 53-128): all counters zero,
phase 0, every start-frame sentinel 0, all artists transparent, petals built
by `create_petal_path(0, 0, i * (360 / num_petals), 0, 0)`, stem with empty
data, leaves of size 0 at `(±40, leaf_positions[i // 2])`. -/
def initState : AnimState where
  frame_count := 0
  current_petal_index := 0
  animation_phase := 0
  petal_bloom_starts := fun _ => 0
  leaf_unfurl_starts := fun _ => 0
  sway_angle := 0
  center_alpha := 0
  title_alpha := 0
  title_pos := .fixed 0 120
  label_text := ""
  label_alpha := 0
  petal_paths := fun i => ⟨.origin, (i : ℚ) * (360 / (num_petals : ℚ)), 0, 0, 0⟩
  petal_alphas := fun _ => 0
  stem_data := none
  stem_alpha := 0
  leaf_widths := fun _ => 0
  leaf_heights := fun _ => 0
  leaf_alphas := fun _ => 0
  leaf_centers := fun i => .fixed (if i % 2 = 0 then -40 else 40) (leafPos (i / 2))

/-! ## The animation driver

`animate(frame)` (source lines 130-250).  `frame` is the value FuncAnimation
passes (the global frame number, cycling through `range(total_frames)`);
the body's `frame_count = frame` and the `frame_count = 0` stores at the
transitions are modelled exactly as written (note that nothing ever reads
`frame_count`).  The dead local `local_sway` (line 133) is omitted. -/

/-- Phase 0 — center fade-in (source lines 140-150). -/
def phase0Step (s : AnimState) (frame : ℕ) : AnimState :=
  let progress := center_progress frame
  let s := { s with
    center_alpha := progress
    title_alpha := progress
    label_text := "Center Appearing..."
    label_alpha :=
      if frame < label_duration * 2 then
        min (((frame % (label_duration * 2) : ℕ) : ℚ) / (label_duration : ℚ)) 1
      else 0 }
  if center_fade_duration + phase_delay ≤ frame then
    { s with animation_phase := 1, current_petal_index := 0, frame_count := 0 }
  else s

/-- Phase 1 — staggered petal bloom (source lines 152-181).  The per-petal
update reads `petal_bloom_starts` *before* this frame's trigger; the
trigger writes `petal_bloom_starts[current_petal_index] = frame`; the
transition tests `petal_bloom_starts[-1]` (entry 11) after the trigger. -/
def phase1Step (s : AnimState) (frame : ℕ) : AnimState :=
  let s := { s with
    label_text := "Petals Blooming..."
    label_alpha := labelBlink frame
    petal_alphas := fun i =>
      if i < num_petals ∧ 0 < s.petal_bloom_starts i then
        (if 0 < bloomProgress (s.petal_bloom_starts i) frame then
          bloomProgress (s.petal_bloom_starts i) frame
        else 0)
      else s.petal_alphas i
    petal_paths := fun i =>
      if i < num_petals ∧ 0 < s.petal_bloom_starts i ∧
          0 < bloomProgress (s.petal_bloom_starts i) frame then
        { center := .origin
          angle_deg := (i : ℚ) * (360 / (num_petals : ℚ))
          length := petal_length * bloomProgress (s.petal_bloom_starts i) frame
          width := petal_width * bloomProgress (s.petal_bloom_starts i) frame
          rotation := bloomProgress (s.petal_bloom_starts i) frame * 15 }
      else s.petal_paths i }
  let s :=
    if frame % bloom_stagger = 0 ∧ s.current_petal_index < num_petals then
      { s with
        petal_bloom_starts := fun j =>
          if j = s.current_petal_index then frame else s.petal_bloom_starts j
        current_petal_index := s.current_petal_index + 1 }
    else s
  if num_petals ≤ s.current_petal_index ∧
      (bloom_duration : ℤ) ≤ (frame : ℤ) - (s.petal_bloom_starts (num_petals - 1) : ℤ) then
    { s with animation_phase := 2, frame_count := 0 }
  else s

/-- Phase 2 — stem and leaves (source lines 183-213).  The stem is drawn
only when the (global) frame equals 0; each leaf's trigger and growth run
in the same loop iteration, so growth sees this frame's trigger. -/
def phase2Step (s : AnimState) (frame : ℕ) : AnimState :=
  let s := { s with
    label_text := "Leaves Unfurling..."
    label_alpha := labelBlink frame }
  let s :=
    if frame = 0 then
      { s with
        stem_data := some ((0, 0), (center_radius, stem_height))
        stem_alpha := 1 }
    else s
  let newStarts : ℕ → ℕ := fun i =>
    if i < 6 ∧ s.leaf_unfurl_starts i = 0 ∧ frame % unfurl_duration = side_delay i then
      frame
    else s.leaf_unfurl_starts i
  let s := { s with
    leaf_unfurl_starts := newStarts
    leaf_widths := fun i =>
      if i < 6 ∧ 0 < newStarts i then
        leaf_size * unfurlProgress (newStarts i) frame
      else s.leaf_widths i
    leaf_heights := fun i =>
      if i < 6 ∧ 0 < newStarts i then
        leaf_size * unfurlProgress (newStarts i) frame * (7/10)
      else s.leaf_heights i
    leaf_alphas := fun i =>
      if i < 6 ∧ 0 < newStarts i then
        unfurlProgress (newStarts i) frame
      else s.leaf_alphas i }
  if ∀ i ∈ List.range 6, 0 < newStarts i ∧
      (unfurl_duration : ℤ) ≤ (frame : ℤ) - (newStarts i : ℤ) then
    { s with animation_phase := 3, frame_count := 0 }
  else s

/-- Phase 3 — sway, steady state (source lines 215-244).  `s.sway_angle` is
the value already incremented at the top of this call: the rotation matrix
is built from it (line 137) and applied to every petal's axis offset and
every leaf's `(±50, pos_y)` offset. -/
def phase3Step (s : AnimState) (_frame : ℕ) : AnimState :=
  { s with
    label_text := "Flower Swaying..."
    label_alpha := 7/10
    petal_paths := fun i =>
      if i < num_petals then
        { center := .swayRotated s.sway_angle ((i : ℚ) * (360 / (num_petals : ℚ)))
          angle_deg := (i : ℚ) * (360 / (num_petals : ℚ))
          length := petal_length
          width := petal_width
          rotation := 0 }
      else s.petal_paths i
    petal_alphas := fun i => if i < num_petals then 1 else s.petal_alphas i
    leaf_centers := fun i =>
      if i < 6 then
        .swayRotated s.sway_angle (if i % 2 = 0 then -50 else 50) (leafPos (i / 2))
      else s.leaf_centers i
    leaf_widths := fun i => if i < 6 then leaf_size else s.leaf_widths i
    leaf_heights := fun i => if i < 6 then leaf_size * (7/10) else s.leaf_heights i
    leaf_alphas := fun i => if i < 6 then 1 else s.leaf_alphas i
    title_pos := .swayed s.sway_angle }

/-- One invocation of `animate(frame)`: store the frame counter, advance the
sway angle (lines 132-137), run the current phase's block (the `if/elif`
chain, lines 140-244), then apply the unconditional center-alpha override
(lines 246-248: `center_alpha = 1 if animation_phase > 0 else 0`). -/
def animate (s : AnimState) (frame : ℕ) : AnimState :=
  let s1 := { s with frame_count := frame, sway_angle := s.sway_angle + sway_speed }
  let s2 :=
    if s1.animation_phase = 0 then phase0Step s1 frame
    else if s1.animation_phase = 1 then phase1Step s1 frame
    else if s1.animation_phase = 2 then phase2Step s1 frame
    else if s1.animation_phase = 3 then phase3Step s1 frame
    else s1
  { s2 with center_alpha := if 0 < s2.animation_phase then 1 else 0 }

/-- The state after `n` driver invocations: `FuncAnimation(..., frames =
total_frames, repeat = True)` delivers frames `0, 1, …, 599, 0, 1, …`, so
invocation `n` receives frame `n % total_frames`. -/
def traj : ℕ → AnimState
  | 0 => initState
  | n + 1 => animate (traj n) (n % total_frames)

/-! ## Derived definitions used by the statements -/

/-- Squared Euclidean distance of a point from a center; two nonnegative
distances are equal iff their squares are. -/
def distSq (v c : ℝ × ℝ) : ℝ := (v.1 - c.1)^2 + (v.2 - c.2)^2

/-- "Exactly one vertex of `verts` lies at distance `d` from `c`, namely the
one at position 1": stated with squared distances (for nonnegative `d`,
`dist = d` iff `distSq = d^2`). -/
def tip_unique (verts : List (ℝ × ℝ)) (c : ℝ × ℝ) (d : ℝ) : Prop :=
  (∃ v, verts.get? 1 = some v) ∧
  (∀ v, verts.get? 1 = some v → distSq v c = d^2) ∧
  (∀ j v, j ≠ 1 → verts.get? j = some v → distSq v c ≠ d^2)

/-- The vertex order asserted by the spec for the petal outline: "a base-left
point, then two symmetric bulge control points …, then a tip point …, then a
base-right point, closed back to the start."  (Stated from the spec's words,
for comparison with `petal_verts`.) -/
noncomputable def spec_order_verts (center_x center_y angle_deg length width rotation : ℝ) :
    List (ℝ × ℝ) :=
  let angle_rad := radians (angle_deg + rotation)
  let mid_x := center_x + (length * 0.5) * Real.cos angle_rad
  let mid_y := center_y + (length * 0.5) * Real.sin angle_rad
  [(center_x + length * Real.cos (angle_rad - Real.pi/2),
    center_y + length * Real.sin (angle_rad - Real.pi/2)),
   (mid_x - width/2 * Real.sin angle_rad, mid_y + width/2 * Real.cos angle_rad),
   (mid_x + width/2 * Real.sin angle_rad, mid_y - width/2 * Real.cos angle_rad),
   (center_x + length * 1.2 * Real.cos angle_rad,
    center_y + length * 1.2 * Real.sin angle_rad),
   (center_x + length * Real.cos (angle_rad + Real.pi/2),
    center_y + length * Real.sin (angle_rad + Real.pi/2)),
   (center_x + length * Real.cos (angle_rad - Real.pi/2),
    center_y + length * Real.sin (angle_rad - Real.pi/2))]

/-- Invariant on the petal-launch scheduler: every bloom-start entry at or
beyond the "next petal to start" index is still the unset sentinel, and in
phase 0 the whole table is unset. -/
def PetalInv (s : AnimState) : Prop :=
  (∀ j, s.current_petal_index ≤ j → s.petal_bloom_starts j = 0) ∧
  (s.animation_phase = 0 → ∀ j, s.petal_bloom_starts j = 0)

end Flower

namespace Flower

/-! ## Per-phase projection lemmas -/

theorem phase0Step_sway (s : AnimState) (f : ℕ) :
    (phase0Step s f).sway_angle = s.sway_angle := by
  simp only [phase0Step]; split <;> rfl

theorem phase1Step_sway (s : AnimState) (f : ℕ) :
    (phase1Step s f).sway_angle = s.sway_angle := by
  simp only [phase1Step]; split <;> split <;> rfl

theorem phase2Step_sway (s : AnimState) (f : ℕ) :
    (phase2Step s f).sway_angle = s.sway_angle := by
  simp only [phase2Step]; split <;> split <;> rfl

theorem phase3Step_sway (s : AnimState) (f : ℕ) :
    (phase3Step s f).sway_angle = s.sway_angle := by
  simp only [phase3Step]

theorem phase0Step_phase (s : AnimState) (f : ℕ) :
    (phase0Step s f).animation_phase = s.animation_phase ∨
      (phase0Step s f).animation_phase = 1 := by
  simp only [phase0Step]; split
  · exact Or.inr rfl
  · exact Or.inl rfl

theorem phase1Step_phase (s : AnimState) (f : ℕ) :
    (phase1Step s f).animation_phase = s.animation_phase ∨
      (phase1Step s f).animation_phase = 2 := by
  simp only [phase1Step]
  split <;> split
  · exact Or.inr rfl
  · exact Or.inl rfl
  · exact Or.inr rfl
  · exact Or.inl rfl

theorem phase2Step_phase (s : AnimState) (f : ℕ) :
    (phase2Step s f).animation_phase = s.animation_phase ∨
      (phase2Step s f).animation_phase = 3 := by
  simp only [phase2Step]
  split <;> split
  · exact Or.inr rfl
  · exact Or.inl rfl
  · exact Or.inr rfl
  · exact Or.inl rfl

theorem phase3Step_phase (s : AnimState) (f : ℕ) :
    (phase3Step s f).animation_phase = s.animation_phase := by
  simp only [phase3Step]


theorem phase0Step_fields (s : AnimState) (f : ℕ) :
    (phase0Step s f).petal_bloom_starts = s.petal_bloom_starts ∧
    (phase0Step s f).leaf_unfurl_starts = s.leaf_unfurl_starts ∧
    (phase0Step s f).stem_alpha = s.stem_alpha ∧
    (phase0Step s f).stem_data = s.stem_data ∧
    (phase0Step s f).petal_alphas = s.petal_alphas ∧
    (phase0Step s f).petal_paths = s.petal_paths ∧
    (phase0Step s f).current_petal_index =
      (if center_fade_duration + phase_delay ≤ f then 0 else s.current_petal_index) := by
  simp only [phase0Step]
  split_ifs <;> exact ⟨rfl, rfl, rfl, rfl, rfl, rfl, rfl⟩

theorem phase1Step_fields (s : AnimState) (f : ℕ) :
    (phase1Step s f).leaf_unfurl_starts = s.leaf_unfurl_starts ∧
    (phase1Step s f).stem_alpha = s.stem_alpha ∧
    (phase1Step s f).stem_data = s.stem_data ∧
    (phase1Step s f).petal_bloom_starts =
      (if f % bloom_stagger = 0 ∧ s.current_petal_index < num_petals then
        (fun j => if j = s.current_petal_index then f else s.petal_bloom_starts j)
      else s.petal_bloom_starts) ∧
    (phase1Step s f).current_petal_index =
      (if f % bloom_stagger = 0 ∧ s.current_petal_index < num_petals then
        s.current_petal_index + 1
      else s.current_petal_index) := by
  simp only [phase1Step]
  split_ifs <;> exact ⟨rfl, rfl, rfl, rfl, rfl⟩

theorem phase1Step_petal_alphas (s : AnimState) (f : ℕ) :
    (phase1Step s f).petal_alphas = fun i =>
      if i < num_petals ∧ 0 < s.petal_bloom_starts i then
        (if 0 < bloomProgress (s.petal_bloom_starts i) f then
          bloomProgress (s.petal_bloom_starts i) f
        else 0)
      else s.petal_alphas i := by
  simp only [phase1Step]
  split_ifs <;> rfl

theorem phase1Step_petal_paths (s : AnimState) (f : ℕ) :
    (phase1Step s f).petal_paths = fun i =>
      if i < num_petals ∧ 0 < s.petal_bloom_starts i ∧
          0 < bloomProgress (s.petal_bloom_starts i) f then
        { center := .origin
          angle_deg := (i : ℚ) * (360 / (num_petals : ℚ))
          length := petal_length * bloomProgress (s.petal_bloom_starts i) f
          width := petal_width * bloomProgress (s.petal_bloom_starts i) f
          rotation := bloomProgress (s.petal_bloom_starts i) f * 15 }
      else s.petal_paths i := by
  simp only [phase1Step]
  split_ifs <;> rfl

theorem phase2Step_fields (s : AnimState) (f : ℕ) :
    (phase2Step s f).petal_bloom_starts = s.petal_bloom_starts ∧
    (phase2Step s f).current_petal_index = s.current_petal_index ∧
    (phase2Step s f).petal_alphas = s.petal_alphas ∧
    (phase2Step s f).petal_paths = s.petal_paths ∧
    (phase2Step s f).stem_alpha = (if f = 0 then 1 else s.stem_alpha) ∧
    (phase2Step s f).stem_data =
      (if f = 0 then some ((0, 0), (center_radius, stem_height)) else s.stem_data) ∧
    (phase2Step s f).leaf_unfurl_starts = fun i =>
      if i < 6 ∧ s.leaf_unfurl_starts i = 0 ∧ f % unfurl_duration = side_delay i then
        f
      else s.leaf_unfurl_starts i := by
  simp only [phase2Step]
  split_ifs <;> exact ⟨rfl, rfl, rfl, rfl, rfl, rfl, rfl⟩

theorem phase3Step_fields (s : AnimState) (f : ℕ) :
    (phase3Step s f).petal_bloom_starts = s.petal_bloom_starts ∧
    (phase3Step s f).leaf_unfurl_starts = s.leaf_unfurl_starts ∧
    (phase3Step s f).stem_alpha = s.stem_alpha ∧
    (phase3Step s f).stem_data = s.stem_data ∧
    (phase3Step s f).current_petal_index = s.current_petal_index :=
  ⟨rfl, rfl, rfl, rfl, rfl⟩

theorem phase3Step_petal_paths (s : AnimState) (f : ℕ) :
    (phase3Step s f).petal_paths = fun i =>
      if i < num_petals then
        { center := .swayRotated s.sway_angle ((i : ℚ) * (360 / (num_petals : ℚ)))
          angle_deg := (i : ℚ) * (360 / (num_petals : ℚ))
          length := petal_length
          width := petal_width
          rotation := 0 }
      else s.petal_paths i := rfl

theorem phase3Step_leaf_centers (s : AnimState) (f : ℕ) :
    (phase3Step s f).leaf_centers = fun i =>
      if i < 6 then
        .swayRotated s.sway_angle (if i % 2 = 0 then -50 else 50) (leafPos (i / 2))
      else s.leaf_centers i := rfl


/-! ## Invocation-level lemmas -/

/-- The sway angle is advanced by `sway_speed` on every invocation, in every
phase (source line 136 runs before the phase dispatch). -/
theorem animate_sway_angle (s : AnimState) (f : ℕ) :
    (animate s f).sway_angle = s.sway_angle + sway_speed := by
  simp only [animate]
  split_ifs <;>
    simp [phase0Step_sway, phase1Step_sway, phase2Step_sway, phase3Step_sway]

/-- The trailing override (source lines 246-248) fixes the center's alpha as
a function of the phase reached at the end of the invocation. -/
theorem animate_center_alpha (s : AnimState) (f : ℕ) :
    (animate s f).center_alpha =
      if 0 < (animate s f).animation_phase then 1 else 0 := rfl

/-- Each invocation leaves the phase unchanged or advances it by one, and
only from a phase below 3. -/
theorem animate_phase_cases (s : AnimState) (f : ℕ) :
    (animate s f).animation_phase = s.animation_phase ∨
      ((animate s f).animation_phase = s.animation_phase + 1 ∧
        s.animation_phase < 3) := by
  simp only [animate]
  split_ifs with h0 h1 h2 h3
  · rcases phase0Step_phase _ f with h | h <;> rw [h] <;> simp_all
  · rcases phase1Step_phase _ f with h | h <;> rw [h] <;> simp_all
  · rcases phase2Step_phase _ f with h | h <;> rw [h] <;> simp_all
  · rw [phase3Step_phase]; simp_all
  · simp

theorem animate_phase_mono (s : AnimState) (f : ℕ) :
    s.animation_phase ≤ (animate s f).animation_phase := by
  rcases animate_phase_cases s f with h | ⟨h, _⟩ <;> omega

theorem animate_phase_le_succ (s : AnimState) (f : ℕ) :
    (animate s f).animation_phase ≤ s.animation_phase + 1 := by
  rcases animate_phase_cases s f with h | ⟨h, _⟩ <;> omega

theorem animate_phase3_absorb (s : AnimState) (f : ℕ) (h : s.animation_phase = 3) :
    (animate s f).animation_phase = 3 := by
  rcases animate_phase_cases s f with h' | ⟨h', hlt⟩ <;> omega


theorem phase0Step_stem_alpha (s : AnimState) (f : ℕ) :
    (phase0Step s f).stem_alpha = s.stem_alpha := (phase0Step_fields s f).2.2.1

theorem phase1Step_stem_alpha (s : AnimState) (f : ℕ) :
    (phase1Step s f).stem_alpha = s.stem_alpha := (phase1Step_fields s f).2.1

theorem phase2Step_stem_alpha (s : AnimState) (f : ℕ) :
    (phase2Step s f).stem_alpha = if f = 0 then 1 else s.stem_alpha :=
  (phase2Step_fields s f).2.2.2.2.1

theorem phase3Step_stem_alpha (s : AnimState) (f : ℕ) :
    (phase3Step s f).stem_alpha = s.stem_alpha := (phase3Step_fields s f).2.2.1

theorem phase0Step_stem_data (s : AnimState) (f : ℕ) :
    (phase0Step s f).stem_data = s.stem_data := (phase0Step_fields s f).2.2.2.1

theorem phase1Step_stem_data (s : AnimState) (f : ℕ) :
    (phase1Step s f).stem_data = s.stem_data := (phase1Step_fields s f).2.2.1

theorem phase2Step_stem_data (s : AnimState) (f : ℕ) :
    (phase2Step s f).stem_data =
      if f = 0 then some ((0, 0), (center_radius, stem_height)) else s.stem_data :=
  (phase2Step_fields s f).2.2.2.2.2.1

theorem phase3Step_stem_data (s : AnimState) (f : ℕ) :
    (phase3Step s f).stem_data = s.stem_data := (phase3Step_fields s f).2.2.2.1

/-- The stem is mutated only in phase 2 and only when the global frame is 0
(source lines 189-192). -/
theorem animate_stem_alpha (s : AnimState) (f : ℕ) :
    (animate s f).stem_alpha =
      if s.animation_phase = 2 ∧ f = 0 then 1 else s.stem_alpha := by
  simp only [animate]
  split_ifs <;>
    simp_all [phase0Step_stem_alpha, phase1Step_stem_alpha, phase2Step_stem_alpha,
      phase3Step_stem_alpha]

theorem animate_stem_data (s : AnimState) (f : ℕ) :
    (animate s f).stem_data =
      if s.animation_phase = 2 ∧ f = 0 then
        some ((0, 0), (center_radius, stem_height))
      else s.stem_data := by
  simp only [animate]
  split_ifs <;>
    simp_all [phase0Step_stem_data, phase1Step_stem_data, phase2Step_stem_data,
      phase3Step_stem_data]


theorem phase0Step_petal_starts (s : AnimState) (f : ℕ) :
    (phase0Step s f).petal_bloom_starts = s.petal_bloom_starts :=
  (phase0Step_fields s f).1

theorem phase0Step_idx (s : AnimState) (f : ℕ) :
    (phase0Step s f).current_petal_index =
      if center_fade_duration + phase_delay ≤ f then 0 else s.current_petal_index :=
  (phase0Step_fields s f).2.2.2.2.2.2

theorem phase1Step_petal_starts (s : AnimState) (f : ℕ) :
    (phase1Step s f).petal_bloom_starts =
      if f % bloom_stagger = 0 ∧ s.current_petal_index < num_petals then
        (fun j => if j = s.current_petal_index then f else s.petal_bloom_starts j)
      else s.petal_bloom_starts :=
  (phase1Step_fields s f).2.2.2.1

theorem phase1Step_idx (s : AnimState) (f : ℕ) :
    (phase1Step s f).current_petal_index =
      if f % bloom_stagger = 0 ∧ s.current_petal_index < num_petals then
        s.current_petal_index + 1
      else s.current_petal_index :=
  (phase1Step_fields s f).2.2.2.2

theorem phase2Step_petal_starts (s : AnimState) (f : ℕ) :
    (phase2Step s f).petal_bloom_starts = s.petal_bloom_starts :=
  (phase2Step_fields s f).1

theorem phase2Step_idx (s : AnimState) (f : ℕ) :
    (phase2Step s f).current_petal_index = s.current_petal_index :=
  (phase2Step_fields s f).2.1

theorem phase3Step_petal_starts (s : AnimState) (f : ℕ) :
    (phase3Step s f).petal_bloom_starts = s.petal_bloom_starts :=
  (phase3Step_fields s f).1

theorem phase3Step_idx (s : AnimState) (f : ℕ) :
    (phase3Step s f).current_petal_index = s.current_petal_index :=
  (phase3Step_fields s f).2.2.2.2

theorem phase0Step_leaf_starts (s : AnimState) (f : ℕ) :
    (phase0Step s f).leaf_unfurl_starts = s.leaf_unfurl_starts :=
  (phase0Step_fields s f).2.1

theorem phase1Step_leaf_starts (s : AnimState) (f : ℕ) :
    (phase1Step s f).leaf_unfurl_starts = s.leaf_unfurl_starts :=
  (phase1Step_fields s f).1

theorem phase2Step_leaf_starts (s : AnimState) (f : ℕ) :
    (phase2Step s f).leaf_unfurl_starts = fun i =>
      if i < 6 ∧ s.leaf_unfurl_starts i = 0 ∧ f % unfurl_duration = side_delay i then
        f
      else s.leaf_unfurl_starts i :=
  (phase2Step_fields s f).2.2.2.2.2.2

theorem phase3Step_leaf_starts (s : AnimState) (f : ℕ) :
    (phase3Step s f).leaf_unfurl_starts = s.leaf_unfurl_starts :=
  (phase3Step_fields s f).2.1

/-- How an invocation can touch the petal-launch state: not at all, the
index reset at the phase-0 → 1 transition, or one staggered launch in
phase 1 (source lines 147-150 and 173-176). -/
theorem animate_petal_ctrl (s : AnimState) (f : ℕ) :
    ((animate s f).petal_bloom_starts = s.petal_bloom_starts ∧
      (animate s f).current_petal_index = s.current_petal_index) ∨
    (s.animation_phase = 0 ∧
      (animate s f).petal_bloom_starts = s.petal_bloom_starts ∧
      (animate s f).current_petal_index = 0) ∨
    (s.animation_phase = 1 ∧ f % bloom_stagger = 0 ∧
      s.current_petal_index < num_petals ∧
      (animate s f).petal_bloom_starts =
        (fun j => if j = s.current_petal_index then f else s.petal_bloom_starts j) ∧
      (animate s f).current_petal_index = s.current_petal_index + 1) := by
  simp only [animate]
  split_ifs with h0 h1 h2 h3
  · by_cases hf : center_fade_duration + phase_delay ≤ f
    · exact Or.inr (Or.inl ⟨h0, by simp [phase0Step_petal_starts],
        by simp [phase0Step_idx, hf]⟩)
    · exact Or.inl ⟨by simp [phase0Step_petal_starts],
        by simp [phase0Step_idx, hf]⟩
  · by_cases ht : f % bloom_stagger = 0 ∧ s.current_petal_index < num_petals
    · exact Or.inr (Or.inr ⟨h1, ht.1, ht.2,
        by simp [phase1Step_petal_starts, ht], by simp [phase1Step_idx, ht]⟩)
    · exact Or.inl ⟨by simp [phase1Step_petal_starts, ht],
        by simp [phase1Step_idx, ht]⟩
  · exact Or.inl ⟨by simp [phase2Step_petal_starts], by simp [phase2Step_idx]⟩
  · exact Or.inl ⟨by simp [phase3Step_petal_starts], by simp [phase3Step_idx]⟩
  · exact Or.inl ⟨rfl, rfl⟩

/-- A leaf unfurl-start entry is written only in phase 2, only when it is
still the sentinel 0, and then to the current global frame
(source lines 195-199). -/
theorem animate_leaf_ctrl (s : AnimState) (f : ℕ) :
    (animate s f).leaf_unfurl_starts = s.leaf_unfurl_starts ∨
    (s.animation_phase = 2 ∧
      (animate s f).leaf_unfurl_starts = fun i =>
        if i < 6 ∧ s.leaf_unfurl_starts i = 0 ∧
            f % unfurl_duration = side_delay i then
          f
        else s.leaf_unfurl_starts i) := by
  simp only [animate]
  split_ifs with h0 h1 h2 h3
  · exact Or.inl (by simp [phase0Step_leaf_starts])
  · exact Or.inl (by simp [phase1Step_leaf_starts])
  · exact Or.inr ⟨h2, by simp [phase2Step_leaf_starts]⟩
  · exact Or.inl (by simp [phase3Step_leaf_starts])
  · exact Or.inl rfl


/-! ## Trajectory lemmas -/

set_option maxRecDepth 40000

theorem traj_phase_60 : (traj 60).animation_phase = 0 := by decide

theorem traj_phase_61 : (traj 61).animation_phase = 1 := by decide

theorem traj_phase_340 : (traj 340).animation_phase = 1 := by decide

theorem traj_phase_341 : (traj 341).animation_phase = 2 := by decide

theorem traj_phase_380 : (traj 380).animation_phase = 2 := by decide

theorem traj_phase_381 : (traj 381).animation_phase = 3 := by decide

theorem traj_phase_mono {m n : ℕ} (h : m ≤ n) :
    (traj m).animation_phase ≤ (traj n).animation_phase := by
  induction h with
  | refl => exact le_rfl
  | step h ih =>
    exact ih.trans (animate_phase_mono _ _)

theorem traj_phase_le_three (n : ℕ) : (traj n).animation_phase ≤ 3 := by
  induction n with
  | zero => decide
  | succ k ih =>
    simp only [traj]
    rcases animate_phase_cases (traj k) (k % total_frames) with h | ⟨h, hlt⟩ <;> omega

theorem phase0_range {n : ℕ} (h : (traj n).animation_phase = 0) : n ≤ 60 := by
  by_contra hc
  push_neg at hc
  have hm := traj_phase_mono (show 61 ≤ n by omega)
  rw [traj_phase_61] at hm
  omega

theorem phase1_range {n : ℕ} (h : (traj n).animation_phase = 1) :
    61 ≤ n ∧ n ≤ 340 := by
  constructor
  · by_contra hc
    push_neg at hc
    have hm := traj_phase_mono (show n ≤ 60 by omega)
    rw [traj_phase_60] at hm
    omega
  · by_contra hc
    push_neg at hc
    have hm := traj_phase_mono (show 341 ≤ n by omega)
    rw [traj_phase_341] at hm
    omega

theorem phase2_range {n : ℕ} (h : (traj n).animation_phase = 2) :
    341 ≤ n ∧ n ≤ 380 := by
  constructor
  · by_contra hc
    push_neg at hc
    have hm := traj_phase_mono (show n ≤ 340 by omega)
    rw [traj_phase_340] at hm
    omega
  · by_contra hc
    push_neg at hc
    have hm := traj_phase_mono (show 381 ≤ n by omega)
    rw [traj_phase_381] at hm
    omega

theorem phase3_from {n : ℕ} (h : 381 ≤ n) : (traj n).animation_phase = 3 := by
  have h1 := traj_phase_mono h
  rw [traj_phase_381] at h1
  have h2 := traj_phase_le_three n
  omega

theorem traj_sway (n : ℕ) : (traj n).sway_angle = n * sway_speed := by
  induction n with
  | zero => simp [traj, initState]
  | succ k ih =>
    simp only [traj]
    rw [animate_sway_angle, ih]
    push_cast
    ring

/-- The stem artist is never mutated along the whole run: the `frame == 0`
stem-draw guard can only be reached in phase 2, which occupies invocations
341-380, where the global frame is 341-380 ≠ 0. -/
theorem traj_stem (n : ℕ) :
    (traj n).stem_alpha = 0 ∧ (traj n).stem_data = none := by
  induction n with
  | zero => exact ⟨rfl, rfl⟩
  | succ k ih =>
    have ha := animate_stem_alpha (traj k) (k % total_frames)
    have hd := animate_stem_data (traj k) (k % total_frames)
    have hcond : ¬ ((traj k).animation_phase = 2 ∧ k % total_frames = 0) := by
      rintro ⟨h2, hf⟩
      obtain ⟨hlo, hhi⟩ := phase2_range h2
      have h600 : total_frames = 600 := rfl
      rw [h600] at hf
      rw [Nat.mod_eq_of_lt (by omega)] at hf
      omega
    rw [if_neg hcond] at ha hd
    constructor
    · simp only [traj]
      rw [ha]
      exact ih.1
    · simp only [traj]
      rw [hd]
      exact ih.2

/-- The petal-launch invariant holds along the whole run. -/
theorem traj_petalInv (n : ℕ) : PetalInv (traj n) := by
  induction n with
  | zero => exact ⟨fun j _ => rfl, fun _ j => rfl⟩
  | succ k ih =>
    obtain ⟨h1, h2⟩ := ih
    have hpc := animate_phase_cases (traj k) (k % total_frames)
    rcases animate_petal_ctrl (traj k) (k % total_frames) with
      ⟨hb, hi⟩ | ⟨hp, hb, hi⟩ | ⟨hp, hm, hlt, hb, hi⟩
    · constructor
      · intro j hj
        simp only [traj] at hj ⊢
        rw [hb]
        rw [hi] at hj
        exact h1 j hj
      · intro hph j
        simp only [traj] at hph ⊢
        rw [hb]
        rcases hpc with h | ⟨h, _⟩
        · exact h2 (by omega) j
        · omega
    · constructor
      · intro j hj
        simp only [traj] at hj ⊢
        rw [hb]
        exact h2 hp j
      · intro hph j
        simp only [traj] at hph ⊢
        rw [hb]
        exact h2 hp j
    · constructor
      · intro j hj
        simp only [traj] at hj ⊢
        rw [hb, hi] at *
        have hne : j ≠ (traj k).current_petal_index := by omega
        simp only [hne, if_false]
        exact h1 j (by omega)
      · intro hph
        simp only [traj] at hph
        rcases hpc with h | ⟨h, _⟩ <;> omega
    


/-! ## Render-state composition lemmas -/

/-- In phase 1 the per-petal alphas and paths after the invocation, as
functions of the pre-trigger bloom-start table (source lines 158-171). -/
theorem animate_phase1_render (s : AnimState) (f : ℕ) (h : s.animation_phase = 1) :
    (animate s f).petal_alphas = (fun i =>
      if i < num_petals ∧ 0 < s.petal_bloom_starts i then
        (if 0 < bloomProgress (s.petal_bloom_starts i) f then
          bloomProgress (s.petal_bloom_starts i) f
        else 0)
      else s.petal_alphas i) ∧
    (animate s f).petal_paths = (fun i =>
      if i < num_petals ∧ 0 < s.petal_bloom_starts i ∧
          0 < bloomProgress (s.petal_bloom_starts i) f then
        { center := .origin
          angle_deg := (i : ℚ) * (360 / (num_petals : ℚ))
          length := petal_length * bloomProgress (s.petal_bloom_starts i) f
          width := petal_width * bloomProgress (s.petal_bloom_starts i) f
          rotation := bloomProgress (s.petal_bloom_starts i) f * 15 }
      else s.petal_paths i) := by
  simp only [animate]
  rw [if_neg (by simp [h]), if_pos (by simp [h])]
  constructor
  · simp only [phase1Step_petal_alphas]
  · simp only [phase1Step_petal_paths]

/-- In phase 3 every petal's path is rebuilt at full size with its axis
offset rotated by the freshly incremented sway angle, and every leaf is
recentered likewise (source lines 221-240). -/
theorem animate_phase3_render (s : AnimState) (f : ℕ) (h : s.animation_phase = 3) :
    (animate s f).petal_paths = (fun i =>
      if i < num_petals then
        { center := .swayRotated (s.sway_angle + sway_speed)
            ((i : ℚ) * (360 / (num_petals : ℚ)))
          angle_deg := (i : ℚ) * (360 / (num_petals : ℚ))
          length := petal_length
          width := petal_width
          rotation := 0 }
      else s.petal_paths i) ∧
    (animate s f).leaf_centers = (fun i =>
      if i < 6 then
        .swayRotated (s.sway_angle + sway_speed)
          (if i % 2 = 0 then -50 else 50) (leafPos (i / 2))
      else s.leaf_centers i) := by
  simp only [animate]
  rw [if_neg (by simp [h]), if_neg (by simp [h]), if_neg (by simp [h]),
    if_pos (by simp [h])]
  constructor
  · simp only [phase3Step_petal_paths]
  · simp only [phase3Step_leaf_centers]


/-! ## Geometry lemmas -/

/-- `create_petal_path`'s vertex list, written out: base-left, tip, the two
bulge points, base-right, then the 0.8-length "close curve" point. -/
theorem petal_verts_eq (cx cy a l w r : ℝ) :
    petal_verts cx cy a l w r =
      [(cx + l * Real.cos (radians (a + r) - Real.pi/2),
        cy + l * Real.sin (radians (a + r) - Real.pi/2)),
       (cx + l * 1.2 * Real.cos (radians (a + r)),
        cy + l * 1.2 * Real.sin (radians (a + r))),
       ((cx + (l * 0.5) * Real.cos (radians (a + r))) - w/2 * Real.sin (radians (a + r)),
        (cy + (l * 0.5) * Real.sin (radians (a + r))) + w/2 * Real.cos (radians (a + r))),
       ((cx + (l * 0.5) * Real.cos (radians (a + r))) + w/2 * Real.sin (radians (a + r)),
        (cy + (l * 0.5) * Real.sin (radians (a + r))) - w/2 * Real.cos (radians (a + r))),
       (cx + l * Real.cos (radians (a + r) + Real.pi/2),
        cy + l * Real.sin (radians (a + r) + Real.pi/2)),
       (cx + l * 0.8 * Real.cos (radians (a + r) - Real.pi/2),
        cy + l * 0.8 * Real.sin (radians (a + r) - Real.pi/2))] := rfl

/-- When the petal length is positive and the width is in the program's
fixed 3:5 proportion to it, the tip (vertex 1) is the unique vertex at
distance `1.2 · length` from the center. -/
theorem petal_tip_unique (cx cy a l w r : ℝ) (hl : 0 < l) (hw : w = 3/5 * l) :
    tip_unique (petal_verts cx cy a l w r) (cx, cy) (1.2 * l) := by
  rw [petal_verts_eq]
  have h0 := Real.sin_sq_add_cos_sq (radians (a + r))
  have hm := Real.sin_sq_add_cos_sq (radians (a + r) - Real.pi/2)
  have hp := Real.sin_sq_add_cos_sq (radians (a + r) + Real.pi/2)
  have hl2 := mul_pos hl hl
  refine ⟨⟨_, rfl⟩, ?_, ?_⟩
  · intro v hv
    have hv' : v = (cx + l * 1.2 * Real.cos (radians (a + r)),
        cy + l * 1.2 * Real.sin (radians (a + r))) := by
      simpa using hv.symm
    subst hv'
    simp only [distSq]
    linear_combination (l * 1.2)^2 * h0
  · intro j v hj hv
    rcases j with _ | _ | _ | _ | _ | _ | j
    · have hv' : v = (cx + l * Real.cos (radians (a + r) - Real.pi/2),
          cy + l * Real.sin (radians (a + r) - Real.pi/2)) := by
        simpa using hv.symm
      subst hv'
      intro heq
      have hd : distSq (cx + l * Real.cos (radians (a + r) - Real.pi/2),
          cy + l * Real.sin (radians (a + r) - Real.pi/2)) (cx, cy) = l^2 := by
        simp only [distSq]
        linear_combination l^2 * hm
      rw [hd] at heq
      nlinarith [hl2]
    · exact absurd rfl hj
    · have hv' : v = ((cx + (l * 0.5) * Real.cos (radians (a + r))) -
          w/2 * Real.sin (radians (a + r)),
          (cy + (l * 0.5) * Real.sin (radians (a + r))) +
          w/2 * Real.cos (radians (a + r))) := by
        simpa using hv.symm
      subst hv'
      intro heq
      have hd : distSq ((cx + (l * 0.5) * Real.cos (radians (a + r))) -
          w/2 * Real.sin (radians (a + r)),
          (cy + (l * 0.5) * Real.sin (radians (a + r))) +
          w/2 * Real.cos (radians (a + r))) (cx, cy) = (l * 0.5)^2 + (w/2)^2 := by
        simp only [distSq]
        linear_combination ((l * 0.5)^2 + (w/2)^2) * h0
      rw [hd, hw] at heq
      nlinarith [hl2]
    · have hv' : v = ((cx + (l * 0.5) * Real.cos (radians (a + r))) +
          w/2 * Real.sin (radians (a + r)),
          (cy + (l * 0.5) * Real.sin (radians (a + r))) -
          w/2 * Real.cos (radians (a + r))) := by
        simpa using hv.symm
      subst hv'
      intro heq
      have hd : distSq ((cx + (l * 0.5) * Real.cos (radians (a + r))) +
          w/2 * Real.sin (radians (a + r)),
          (cy + (l * 0.5) * Real.sin (radians (a + r))) -
          w/2 * Real.cos (radians (a + r))) (cx, cy) = (l * 0.5)^2 + (w/2)^2 := by
        simp only [distSq]
        linear_combination ((l * 0.5)^2 + (w/2)^2) * h0
      rw [hd, hw] at heq
      nlinarith [hl2]
    · have hv' : v = (cx + l * Real.cos (radians (a + r) + Real.pi/2),
          cy + l * Real.sin (radians (a + r) + Real.pi/2)) := by
        simpa using hv.symm
      subst hv'
      intro heq
      have hd : distSq (cx + l * Real.cos (radians (a + r) + Real.pi/2),
          cy + l * Real.sin (radians (a + r) + Real.pi/2)) (cx, cy) = l^2 := by
        simp only [distSq]
        linear_combination l^2 * hp
      rw [hd] at heq
      nlinarith [hl2]
    · have hv' : v = (cx + l * 0.8 * Real.cos (radians (a + r) - Real.pi/2),
          cy + l * 0.8 * Real.sin (radians (a + r) - Real.pi/2)) := by
        simpa using hv.symm
      subst hv'
      intro heq
      have hd : distSq (cx + l * 0.8 * Real.cos (radians (a + r) - Real.pi/2),
          cy + l * 0.8 * Real.sin (radians (a + r) - Real.pi/2)) (cx, cy) =
          (l * 0.8)^2 := by
        simp only [distSq]
        linear_combination (l * 0.8)^2 * hm
      rw [hd] at heq
      nlinarith [hl2]
    · simp at hv

/-- With `length = width = 0` every vertex is the center point. -/
theorem petal_verts_zero (cx cy a r : ℝ) :
    ∀ v ∈ petal_verts cx cy a 0 0 r, v = (cx, cy) := by
  rw [petal_verts_eq]
  intro v hv
  simp only [List.mem_cons, List.not_mem_nil, or_false] at hv
  rcases hv with h | h | h | h | h | h <;> subst h <;> simp

/-- A petal that started strictly before the current frame has positive
bloom progress. -/
theorem bloomProgress_pos {st f : ℕ} (h : st < f) : 0 < bloomProgress st f := by
  unfold bloomProgress
  apply lt_min
  · apply div_pos
    · have hc : (st:ℚ) + 1 ≤ (f:ℚ) := by exact_mod_cast h
      linarith
    · norm_num [bloom_duration]
  · norm_num

theorem bloomProgress_le_one (st f : ℕ) : bloomProgress st f ≤ 1 :=
  min_le_right _ _

/-- The bloom length `petal_length * progress` is non-decreasing in the
frame number. -/
theorem bloomLength_mono (st : ℕ) {f1 f2 : ℕ} (h : f1 ≤ f2) :
    petal_length * bloomProgress st f1 ≤ petal_length * bloomProgress st f2 := by
  have hc : ((f1:ℚ)) ≤ (f2:ℚ) := by exact_mod_cast h
  have hbd : (0:ℚ) < (bloom_duration:ℚ) := by norm_num [bloom_duration]
  have hmin : bloomProgress st f1 ≤ bloomProgress st f2 := by
    unfold bloomProgress
    apply min_le_min _ le_rfl
    exact (div_le_div_iff_of_pos_right hbd).mpr (by linarith)
  exact mul_le_mul_of_nonneg_left hmin (by norm_num [petal_length])

/-- Rendering a path spec whose stored center is the origin. -/
theorem renderVerts_origin (A L W R : ℚ) :
    PetalPathSpec.renderVerts ⟨.origin, A, L, W, R⟩ =
      petal_verts 0 0 (A:ℝ) (L:ℝ) (W:ℝ) (R:ℝ) := rfl


/-! ## The claims -/

/-- C1 (code bug): the claim "no call of `create_petal_path` can fail" is
false — every call builds 6 vertices but only 5 path codes, and matplotlib's
`Path` constructor rejects the mismatch with `ValueError`, so no call
(including the zero-size setup calls at line 100) produces a path value. -/
theorem C1_every_petal_path_call_fails :
    ∀ cx cy a l w r : ℝ,
      (petal_verts cx cy a l w r).length = 6 ∧
      petal_codes.length = 5 ∧
      create_petal_path cx cy a l w r = none := by
  intro cx cy a l w r
  have hlen : (petal_verts cx cy a l w r).length = 6 := by
    rw [petal_verts_eq]
    rfl
  refine ⟨hlen, rfl, ?_⟩
  simp [create_petal_path, Path_mk, hlen, petal_codes]

/-- C2 (code bug): the claim "center opacity after the update for frame f
equals min(f / D_center, 1)" is false.  At frame 40 (inside the Center
phase) the phase-0 block computes progress `center_progress 40 = 1`, but
the unconditional override at the end of `animate` (source lines 246-248)
rewrites the center alpha to 0 while the phase is still 0, so the opacity
after the update is 0. -/
theorem C2_center_fade_in_overridden :
    (traj 41).animation_phase = 0 ∧
    center_progress 40 = 1 ∧
    (traj 41).center_alpha = 0 := by
  have h41 : (traj 41).animation_phase = 0 := by decide
  refine ⟨h41, by norm_num [center_progress, center_fade_duration], ?_⟩
  have h : (traj 41).center_alpha =
      if 0 < (traj 41).animation_phase then 1 else 0 :=
    animate_center_alpha (traj 40) (40 % total_frames)
  rw [h, h41]
  norm_num

/-- C3 (code bug): the claim "on the first StemLeaves invocation the stem
is set fully visible" is false.  The stem-draw guard tests the global frame
(`frame == 0`), which never holds while the phase is 2 (invocations
341-380), so the stem keeps alpha 0 and empty data through the whole run —
even though the StemLeaves phase is entered (invocation 341) and left
(invocation 381). -/
theorem C3_stem_never_shown :
    (traj 341).animation_phase = 2 ∧
    (traj 381).animation_phase = 3 ∧
    (∀ n, (traj n).stem_alpha = 0 ∧ (traj n).stem_data = none) :=
  ⟨traj_phase_341, traj_phase_381, traj_stem⟩

/-- C4 (code bug): the claim "the frame counter used for within-phase
computations resets to 0 on every transition" is false.  The transition
writes `frame_count = 0` (invocation 60), but nothing ever reads
`frame_count`: the next invocation overwrites it with the global frame 61,
and the within-phase computations run on the global frame — no petal is
launched on the first Petals-phase invocation (a reset counter would
satisfy `0 % bloom_stagger == 0`); the first launch happens only at global
frame 80. -/
theorem C4_frame_counter_never_read :
    (traj 61).animation_phase = 1 ∧
    (traj 61).frame_count = 0 ∧
    (traj 62).frame_count = 61 ∧
    (traj 62).current_petal_index = 0 ∧
    (traj 81).current_petal_index = 1 :=
  ⟨traj_phase_61, by decide, by decide, by decide, by decide⟩


/-- If the phase is `k` at invocation `n0` and `k+1` right after, no other
invocation makes that same step (monotonicity of the phase). -/
theorem unique_transition {k n0 : ℕ} (h1 : (traj n0).animation_phase = k)
    (h2 : (traj (n0 + 1)).animation_phase = k + 1) :
    ∃! n : ℕ, (traj n).animation_phase = k ∧
      (traj (n + 1)).animation_phase = k + 1 := by
  refine ⟨n0, ⟨h1, h2⟩, ?_⟩
  rintro m ⟨hm1, hm2⟩
  by_contra hne
  rcases Nat.lt_or_ge m n0 with hlt | hge
  · have hmono := traj_phase_mono (show m + 1 ≤ n0 by omega)
    omega
  · have hgt : n0 + 1 ≤ m := by omega
    have hmono := traj_phase_mono hgt
    omega

/-- C5: the phase never decreases, advances by at most one per invocation,
phase 3 (Sway) is absorbing, each of the three transitions
Center → Petals → StemLeaves → Sway happens at exactly one invocation of
the run, and from invocation 381 on the run stays in Sway forever. -/
theorem C5_phase_order :
    (∀ (s : AnimState) (f : ℕ),
      s.animation_phase ≤ (animate s f).animation_phase) ∧
    (∀ (s : AnimState) (f : ℕ),
      (animate s f).animation_phase ≤ s.animation_phase + 1) ∧
    (∀ (s : AnimState) (f : ℕ), s.animation_phase = 3 →
      (animate s f).animation_phase = 3) ∧
    (∀ k, k < 3 → ∃! n : ℕ, (traj n).animation_phase = k ∧
      (traj (n + 1)).animation_phase = k + 1) ∧
    (∀ n, 381 ≤ n → (traj n).animation_phase = 3) := by
  refine ⟨animate_phase_mono, animate_phase_le_succ, animate_phase3_absorb,
    ?_, fun n h => phase3_from h⟩
  intro k hk
  interval_cases k
  · exact unique_transition traj_phase_60 traj_phase_61
  · exact unique_transition traj_phase_340 traj_phase_341
  · exact unique_transition traj_phase_380 traj_phase_381

theorem C5_phase_order_witness :
    (traj 400).animation_phase = 3 ∧
    (∃! n : ℕ, (traj n).animation_phase = 0 ∧
      (traj (n + 1)).animation_phase = 1) :=
  ⟨C5_phase_order.2.2.2.2 400 (by norm_num),
   C5_phase_order.2.2.2.1 0 (by norm_num)⟩

/-- C6 (code bug): the petal scheduler runs on the global frame (no reset),
entering the Petals phase at the frame-60 invocation with the first trigger
only at frame 80.  So 20 frames into the phase exactly 1 petal has started
— but 220 frames in (frame 280, state `traj 281`) only 11 of the 12 petals
have started; the 12th starts at frame 300, 240 frames after entry.  The
earliest petal is fully bloomed by frame 280 (alpha 1). -/
theorem C6_petal_stagger_schedule :
    (traj 61).animation_phase = 1 ∧
    (traj 81).current_petal_index = 1 ∧
    (traj 281).current_petal_index = 11 ∧
    (traj 281).petal_alphas 0 = 1 ∧
    (traj 301).current_petal_index = 12 := by
  refine ⟨traj_phase_61, by decide, by decide, ?_, by decide⟩
  have hph : (traj 280).animation_phase = 1 := by decide
  have hst : (traj 280).petal_bloom_starts 0 = 80 := by decide
  have hbp : bloomProgress 80 (280 % total_frames) = 1 := by
    have hmod : (280 % total_frames) = 280 := rfl
    rw [hmod]
    unfold bloomProgress
    rw [min_eq_right (by norm_num [bloom_duration])]
  have ht : traj 281 = animate (traj 280) (280 % total_frames) := rfl
  rw [ht, (animate_phase1_render (traj 280) (280 % total_frames) hph).1]
  simp [hst, hbp, num_petals]

/-- C7: along the whole run, every petal bloom-start entry and every leaf
unfurl-start entry changes only from the sentinel 0 to a nonzero frame
number, and once nonzero it never changes (so it is set at most once and
never reverts). -/
theorem C7_start_frames_set_once :
    ∀ n i,
      ((traj n).petal_bloom_starts i ≠ 0 →
        (traj (n + 1)).petal_bloom_starts i = (traj n).petal_bloom_starts i) ∧
      ((traj (n + 1)).petal_bloom_starts i ≠ (traj n).petal_bloom_starts i →
        (traj n).petal_bloom_starts i = 0 ∧
          (traj (n + 1)).petal_bloom_starts i ≠ 0) ∧
      ((traj n).leaf_unfurl_starts i ≠ 0 →
        (traj (n + 1)).leaf_unfurl_starts i = (traj n).leaf_unfurl_starts i) ∧
      ((traj (n + 1)).leaf_unfurl_starts i ≠ (traj n).leaf_unfurl_starts i →
        (traj n).leaf_unfurl_starts i = 0 ∧
          (traj (n + 1)).leaf_unfurl_starts i ≠ 0) := by
  intro n i
  have ht : traj (n + 1) = animate (traj n) (n % total_frames) := rfl
  have h600 : total_frames = 600 := rfl
  have hpetal : ((traj n).petal_bloom_starts i ≠ 0 →
      (traj (n + 1)).petal_bloom_starts i = (traj n).petal_bloom_starts i) ∧
      ((traj (n + 1)).petal_bloom_starts i ≠ (traj n).petal_bloom_starts i →
        (traj n).petal_bloom_starts i = 0 ∧
          (traj (n + 1)).petal_bloom_starts i ≠ 0) := by
    rcases animate_petal_ctrl (traj n) (n % total_frames) with
      ⟨hb, -⟩ | ⟨-, hb, -⟩ | ⟨hp, -, -, hb, -⟩
    · rw [ht, hb]
      exact ⟨fun _ => rfl, fun hne => absurd rfl hne⟩
    · rw [ht, hb]
      exact ⟨fun _ => rfl, fun hne => absurd rfl hne⟩
    · have hidx0 : (traj n).petal_bloom_starts ((traj n).current_petal_index) = 0 :=
        (traj_petalInv n).1 _ le_rfl
      have hrange := phase1_range hp
      have hmod : n % total_frames = n := by
        rw [h600]
        exact Nat.mod_eq_of_lt (by omega)
      constructor
      · intro hnz
        rw [ht, hb]
        have hne : ¬ (i = (traj n).current_petal_index) := by
          intro hcontra
          rw [hcontra] at hnz
          exact hnz hidx0
        simp [hne]
      · intro hch
        rw [ht, hb] at hch ⊢
        by_cases hne : i = (traj n).current_petal_index
        · subst hne
          refine ⟨hidx0, ?_⟩
          simp only [hmod]
          simp
          omega
        · simp [hne] at hch
  have hleaf : ((traj n).leaf_unfurl_starts i ≠ 0 →
      (traj (n + 1)).leaf_unfurl_starts i = (traj n).leaf_unfurl_starts i) ∧
      ((traj (n + 1)).leaf_unfurl_starts i ≠ (traj n).leaf_unfurl_starts i →
        (traj n).leaf_unfurl_starts i = 0 ∧
          (traj (n + 1)).leaf_unfurl_starts i ≠ 0) := by
    rcases animate_leaf_ctrl (traj n) (n % total_frames) with hb | ⟨hp, hb⟩
    · rw [ht, hb]
      exact ⟨fun _ => rfl, fun hne => absurd rfl hne⟩
    · have hrange := phase2_range hp
      have hmod : n % total_frames = n := by
        rw [h600]
        exact Nat.mod_eq_of_lt (by omega)
      constructor
      · intro hnz
        rw [ht, hb]
        simp [hnz]
      · intro hch
        rw [ht, hb] at hch ⊢
        by_cases hcond : i < 6 ∧ (traj n).leaf_unfurl_starts i = 0 ∧
            (n % total_frames) % unfurl_duration = side_delay i
        · simp only [if_pos hcond] at hch ⊢
          refine ⟨hcond.2.1, ?_⟩
          rw [hmod]
          omega
        · simp [if_neg hcond] at hch
  exact ⟨hpetal.1, hpetal.2, hleaf.1, hleaf.2⟩

theorem C7_start_frames_set_once_witness :
    (traj 90).petal_bloom_starts 0 ≠ 0 ∧
    (traj 91).petal_bloom_starts 0 = (traj 90).petal_bloom_starts 0 :=
  ⟨by decide, (C7_start_frames_set_once 90 0).1 (by decide)⟩


/-- C8: once a petal has started (strictly before the current frame), the
phase-1 update rebuilds its outline as the origin-centered petal path with
length `petal_length · min((f − start)/bloom_duration, 1)`, width and twist
scaled by the same progress; vertex 1 (the tip) is then the unique vertex
at distance `1.2 ×` that length from the center along the twisted axis;
and the length is non-decreasing in the frame number. -/
theorem C8_tip_unique_and_length_mono :
    (∀ (s : AnimState) (f i : ℕ), s.animation_phase = 1 → i < num_petals →
      0 < s.petal_bloom_starts i → s.petal_bloom_starts i < f →
      (animate s f).petal_paths i =
        { center := .origin
          angle_deg := (i : ℚ) * (360 / (num_petals : ℚ))
          length := petal_length * bloomProgress (s.petal_bloom_starts i) f
          width := petal_width * bloomProgress (s.petal_bloom_starts i) f
          rotation := bloomProgress (s.petal_bloom_starts i) f * 15 } ∧
      tip_unique ((animate s f).petal_paths i).renderVerts (0, 0)
        (1.2 * ((petal_length * bloomProgress (s.petal_bloom_starts i) f : ℚ) : ℝ))) ∧
    (∀ st f1 f2 : ℕ, f1 ≤ f2 →
      petal_length * bloomProgress st f1 ≤ petal_length * bloomProgress st f2) := by
  constructor
  · intro s f i hph hi hst hlt
    have hbp := bloomProgress_pos hlt
    have hpath : (animate s f).petal_paths i =
        { center := .origin
          angle_deg := (i : ℚ) * (360 / (num_petals : ℚ))
          length := petal_length * bloomProgress (s.petal_bloom_starts i) f
          width := petal_width * bloomProgress (s.petal_bloom_starts i) f
          rotation := bloomProgress (s.petal_bloom_starts i) f * 15 } := by
      rw [(animate_phase1_render s f hph).2]
      simp only []
      rw [if_pos ⟨hi, hst, hbp⟩]
    refine ⟨hpath, ?_⟩
    rw [hpath, renderVerts_origin]
    have hlpos : (0:ℝ) <
        ((petal_length * bloomProgress (s.petal_bloom_starts i) f : ℚ) : ℝ) := by
      exact_mod_cast mul_pos (by norm_num [petal_length]) hbp
    have hwrel : ((petal_width * bloomProgress (s.petal_bloom_starts i) f : ℚ) : ℝ) =
        3/5 * ((petal_length * bloomProgress (s.petal_bloom_starts i) f : ℚ) : ℝ) := by
      push_cast [petal_width, petal_length]
      ring
    exact petal_tip_unique _ _ _ _ _ _ hlpos hwrel
  · intro st f1 f2 h
    exact bloomLength_mono st h

theorem C8_tip_unique_and_length_mono_witness :
    ((animate (traj 100) 100).petal_paths 0 =
      { center := .origin
        angle_deg := ((0:ℕ) : ℚ) * (360 / (num_petals : ℚ))
        length := petal_length * bloomProgress ((traj 100).petal_bloom_starts 0) 100
        width := petal_width * bloomProgress ((traj 100).petal_bloom_starts 0) 100
        rotation := bloomProgress ((traj 100).petal_bloom_starts 0) 100 * 15 } ∧
      tip_unique ((animate (traj 100) 100).petal_paths 0).renderVerts (0, 0)
        (1.2 * ((petal_length *
          bloomProgress ((traj 100).petal_bloom_starts 0) 100 : ℚ) : ℝ))) ∧
    petal_length * bloomProgress 80 100 ≤ petal_length * bloomProgress 80 101 :=
  ⟨C8_tip_unique_and_length_mono.1 (traj 100) 100 0 (by decide) (by decide)
      (by decide) (by decide),
   C8_tip_unique_and_length_mono.2 80 100 101 (by norm_num)⟩

/-- C9 counterexample: at the concrete call
`create_petal_path(0, 0, 0, 1, 1, 0)` the code's vertex sequence differs
from the order the claim asserts (base-left, the two bulge points, tip,
base-right, closed back to the start): the code's second vertex is the tip,
not a bulge point. -/
theorem C9_counterexample :
    petal_verts 0 0 0 1 1 0 ≠ spec_order_verts 0 0 0 1 1 0 := by
  intro h
  have h1 := congrArg (fun xs => xs.get? 1) h
  rw [petal_verts_eq] at h1
  simp only [spec_order_verts] at h1
  norm_num [radians] at h1

/-- C9 amended: for every input the builder returns the closed 6-point
sequence base-left, tip (1.2× length along the axis), bulge-left,
bulge-right (the symmetric mid-length bulge points), base-right, and a
final close-curve point at 0.8× length along the base-left direction
(not the start point), with the CLOSEPOLY code closing the outline; and
with length = width = 0 every vertex coincides with the center. -/
theorem C9_amended_vertex_order :
    ∀ cx cy a l w r : ℝ,
      petal_verts cx cy a l w r =
        [(cx + l * Real.cos (radians (a + r) - Real.pi/2),
          cy + l * Real.sin (radians (a + r) - Real.pi/2)),
         (cx + l * 1.2 * Real.cos (radians (a + r)),
          cy + l * 1.2 * Real.sin (radians (a + r))),
         ((cx + (l * 0.5) * Real.cos (radians (a + r))) -
            w/2 * Real.sin (radians (a + r)),
          (cy + (l * 0.5) * Real.sin (radians (a + r))) +
            w/2 * Real.cos (radians (a + r))),
         ((cx + (l * 0.5) * Real.cos (radians (a + r))) +
            w/2 * Real.sin (radians (a + r)),
          (cy + (l * 0.5) * Real.sin (radians (a + r))) -
            w/2 * Real.cos (radians (a + r))),
         (cx + l * Real.cos (radians (a + r) + Real.pi/2),
          cy + l * Real.sin (radians (a + r) + Real.pi/2)),
         (cx + l * 0.8 * Real.cos (radians (a + r) - Real.pi/2),
          cy + l * 0.8 * Real.sin (radians (a + r) - Real.pi/2))] ∧
      petal_codes = [.MOVETO, .CURVE3, .CURVE3, .CURVE3, .CLOSEPOLY] ∧
      ((l = 0 ∧ w = 0) → ∀ v ∈ petal_verts cx cy a l w r, v = (cx, cy)) := by
  intro cx cy a l w r
  refine ⟨petal_verts_eq cx cy a l w r, rfl, ?_⟩
  rintro ⟨rfl, rfl⟩
  exact petal_verts_zero cx cy a r

theorem C9_amended_vertex_order_witness :
    ∀ v ∈ petal_verts 0 0 5 0 0 0, v = (0, 0) :=
  (C9_amended_vertex_order 0 0 5 0 0 0).2.2 ⟨rfl, rfl⟩

/-- C10: the sway angle is advanced by `sway_speed` on every invocation in
every phase, so after `n` invocations it equals `n · sway_speed`; on the
first Sway-phase invocation (number 381) the rotation stored into every
petal path and leaf center is already built from the nonzero accumulated
angle `382 · sway_speed`. -/
theorem C10_sway_accumulates_every_frame :
    (∀ (s : AnimState) (f : ℕ),
      (animate s f).sway_angle = s.sway_angle + sway_speed) ∧
    (∀ n : ℕ, (traj n).sway_angle = n * sway_speed) ∧
    (traj 381).animation_phase = 3 ∧
    ((traj 382).petal_paths 0).center =
      CenterSpec.swayRotated (382 * sway_speed) 0 ∧
    (traj 382).leaf_centers 0 =
      LeafCenterSpec.swayRotated (382 * sway_speed) (-50) (-70) ∧
    (382 * sway_speed : ℚ) ≠ 0 := by
  have ht : traj 382 = animate (traj 381) (381 % total_frames) := rfl
  have hsw : (traj 381).sway_angle = 381 * sway_speed := traj_sway 381
  have hr := animate_phase3_render (traj 381) (381 % total_frames) traj_phase_381
  refine ⟨animate_sway_angle, traj_sway, traj_phase_381, ?_, ?_,
    by norm_num [sway_speed]⟩
  · rw [ht, hr.1]
    simp [hsw, num_petals]
    norm_num [sway_speed]
  · rw [ht, hr.2]
    simp [hsw, leafPos, leaf_positions]
    norm_num [sway_speed]

end Flower